import Mathlib

/-!
Verification development for the stereoscopic-slides-scan pipeline.

The Python source is shallowly embedded:

* images are pixel buffers with explicit height/width and a pixel function;
  NumPy 2-D slicing (including negative indices and clamping) is modelled by
  pyResolve / npCrop2;
* Python floats appearing in size thresholds are modelled by exact rationals,
  with int() truncation rendered as Int.floor (the arguments are nonnegative);
* OpenCV's geometric resampling (remap / resize with bilinear interpolation)
  is modelled over the reals;
* OpenCV's photometric filters (bilateralFilter, fastNlMeansDenoisingColored,
  GaussianBlur, medianBlur, inpainting, CLAHE) are external library calls whose
  internals the pipeline never inspects; they are modelled as free constructors
  of a symbolic image type, so two filter invocations agree exactly when they
  are the same filter applied to the same image with the same parameters;
* raised exceptions become Except values.
-/

namespace StereoScan

/-- A 2-D pixel buffer: height, width and a pixel lookup function (row, col).
Models the numpy ndarray views passed between mount-detector stages. -/
structure PImg (α : Type) where
  height : Nat
  width : Nat
  pix : Nat → Nat → α

/-- Resolve a (possibly negative) Python slice index against a length:
negative indices count from the end, and the result is clamped to [0, len].
This is the semantics of a[i:j] bounds in Python for step 1. -/
def pyResolve (len : Nat) (i : Int) : Nat :=
  if i < 0 then (max (i + len) 0).toNat else min i.toNat len

/-- Length of the Python slice a[start:stop] of a sequence of length len. -/
def pySliceLen (len : Nat) (start stop : Int) : Nat :=
  pyResolve len stop - pyResolve len start

/-- The numpy 2-D crop img[r0:r1, c0:c1] with Python slice index resolution. -/
def npCrop2 {α : Type} (img : PImg α) (r0 r1 c0 c1 : Int) : PImg α :=
  { height := pySliceLen img.height r0 r1
    width := pySliceLen img.width c0 c1
    pix := fun i j => img.pix (pyResolve img.height r0 + i) (pyResolve img.width c0 + j) }

namespace MountDetector

/-- An axis-aligned bounding rectangle as returned by cv2.boundingRect. -/
structure Rect where
  x : Nat
  y : Nat
  w : Nat
  h : Nat
  deriving DecidableEq, Repr

/-- A detected mount window: rectangle coordinates plus the cropped image
(dataclass Window of mount_detector.py). -/
structure Window (α : Type) where
  x : Nat
  y : Nat
  width : Nat
  height : Nat
  image : PImg α

/-- MIN_WINDOW_RATIO from MountDetector.__init__. -/
def MIN_WINDOW_RATIO : ℚ := 1 / 10

/-- MAX_WINDOW_RATIO from MountDetector.__init__. -/
def MAX_WINDOW_RATIO : ℚ := 4 / 10

/-- ASPECT_RATIO_TOL from MountDetector.__init__. -/
def ASPECT_RATIO_TOL : ℚ := 1 / 10

/-- STAPLE_MARGIN from MountDetector.__init__: pixels cropped from every edge. -/
def STAPLE_MARGIN : Nat := 15

/-- MountDetector.remove_staples: crop STAPLE_MARGIN pixels from each edge,
window_image[margin : h-margin, margin : w-margin], with numpy slice
semantics (the stops h-margin and w-margin may be negative Python ints). -/
def remove_staples {α : Type} (window_image : PImg α) : PImg α :=
  npCrop2 window_image STAPLE_MARGIN ((window_image.height : Int) - STAPLE_MARGIN)
    STAPLE_MARGIN ((window_image.width : Int) - STAPLE_MARGIN)

/-- min_window_size = int(img_width * MIN_WINDOW_RATIO): Python float
arithmetic modelled by exact rationals; int() on a nonnegative value is
truncation, i.e. the floor. -/
def min_window_size (img_width : Nat) : Int :=
  ⌊(img_width : ℚ) * MIN_WINDOW_RATIO⌋

/-- max_window_size = int(img_width * MAX_WINDOW_RATIO). -/
def max_window_size (img_width : Nat) : Int :=
  ⌊(img_width : ℚ) * MAX_WINDOW_RATIO⌋

/-- The candidate filter in MountDetector.detect_windows: width and height
strictly between min_window_size and max_window_size, and aspect-ratio error
abs (1 - w / h) strictly below ASPECT_RATIO_TOL (Python float division
modelled by rational division). -/
def acceptRect (img_width : Nat) (r : Rect) : Bool :=
  min_window_size img_width < (r.w : Int) && (r.w : Int) < max_window_size img_width &&
  min_window_size img_width < (r.h : Int) && (r.h : Int) < max_window_size img_width &&
  |1 - (r.w : ℚ) / (r.h : ℚ)| < ASPECT_RATIO_TOL

/-- The window built from an accepted bounding rectangle in detect_windows:
crop the original image to the rectangle, remove staples, then record the
margin-adjusted coordinates and the cleaned image's actual shape. -/
def mkWindow {α : Type} (image : PImg α) (r : Rect) : Window α :=
  let window_image := npCrop2 image (r.y : Int) ((r.y : Int) + r.h) (r.x : Int) ((r.x : Int) + r.w)
  let cleaned_image := remove_staples window_image
  { x := r.x + STAPLE_MARGIN
    y := r.y + STAPLE_MARGIN
    width := cleaned_image.width
    height := cleaned_image.height
    image := cleaned_image }

/-- Insert a window into a list sorted ascending by x, keeping earlier
elements with equal x in front (stability). -/
def insertByX {α : Type} (w : Window α) : List (Window α) → List (Window α)
  | [] => [w]
  | v :: vs => if v.x < w.x then v :: insertByX w vs else w :: v :: vs

/-- Stable sort of windows by ascending x: the model of Python's
windows.sort(key=lambda w: w.x), which is a stable ascending sort. -/
def sortByX {α : Type} : List (Window α) → List (Window α)
  | [] => []
  | w :: ws => insertByX w (sortByX ws)

/-- The accumulation loop of MountDetector.detect_windows over the bounding
rectangles of the approximated contours: append a window for every rectangle
passing the filter. -/
def detectLoop {α : Type} (image : PImg α) (img_width : Nat) : List Rect → List (Window α)
  | [] => []
  | r :: rs =>
    if acceptRect img_width r then mkWindow image r :: detectLoop image img_width rs
    else detectLoop image img_width rs

/-- MountDetector.detect_windows, cut at the cv2 boundary: the segmentation
stages (grayscale, blur, Otsu threshold, morphology, findContours,
approxPolyDP, boundingRect) are opaque library calls producing a list of
bounding rectangles; from there the source filters candidates, crops and
cleans each window, and sorts left to right. -/
def detect_windows {α : Type} (image : PImg α) (img_width : Nat) (rects : List Rect) :
    List (Window α) :=
  sortByX (detectLoop image img_width rects)

/-- Error raised by the mount detector (a Python ValueError whose condition
the specification names WindowCountError), carrying the window count found. -/
inductive MountError where
  | windowCountError (found : Nat)
  deriving DecidableEq, Repr

/-- Center-crop one window to a target_size square with integer offsets
(dim - target_size) // 2, translating the rectangle origin by the same
offsets: the loop body of MountDetector.standardize_windows. -/
def centerCrop {α : Type} (target_size : Nat) (window : Window α) : Window α :=
  let x_offset := (window.width - target_size) / 2
  let y_offset := (window.height - target_size) / 2
  let centered := npCrop2 window.image (y_offset : Int) ((y_offset : Int) + target_size)
    (x_offset : Int) ((x_offset : Int) + target_size)
  { x := window.x + x_offset
    y := window.y + y_offset
    width := target_size
    height := target_size
    image := centered }

/-- MountDetector.standardize_windows: require exactly two windows, compute
the common target size as the minimum over both widths and both heights, and
center-crop each window to a target_size square, translating its origin. -/
def standardize_windows {α : Type} (windows : List (Window α)) :
    Except MountError (List (Window α)) :=
  match windows with
  | [w1, w2] =>
    let target_size := min (min w1.width w2.width) (min w1.height w2.height)
    Except.ok [centerCrop target_size w1, centerCrop target_size w2]
  | _ => Except.error (MountError.windowCountError windows.length)

/-- MountDetector.extract_stereo_pair, cut at the cv2 boundary like
detect_windows: detect, require exactly two windows, standardize, and return
the two images (the final branch is unreachable because standardization
preserves the two-window count). -/
def extract_stereo_pair {α : Type} (image : PImg α) (img_width : Nat) (rects : List Rect) :
    Except MountError (PImg α × PImg α) :=
  let windows := detect_windows image img_width rects
  if windows.length ≠ 2 then
    Except.error (MountError.windowCountError windows.length)
  else
    match standardize_windows windows with
    | Except.error e => Except.error e
    | Except.ok (v0 :: v1 :: _) => Except.ok (v0.image, v1.image)
    | Except.ok l => Except.error (MountError.windowCountError l.length)

end MountDetector

namespace NoiseReducer

/-- Symbolic image values for the restoration stage. The OpenCV photometric
filters are external library calls the pipeline treats as opaque, so each
call becomes a constructor recording the filter applied, its input and the
exact parameters passed; two symbolic results are equal exactly when the same
filters were invoked with the same parameters on the same data. -/
inductive SImg where
  | raw (id : Nat)
  | copy (i : SImg)
  | medianBlur (i : SImg) (kernel_size : Nat)
  | bilateralFilter (i : SImg) (d sigma_color sigma_space : Nat)
  | nlmDenoise (i : SImg) (h template_window_size search_window_size : Nat)
  | gaussianBlur (i : SImg) (kernel_size : Nat)
  | dustRemoved (i : SImg) (kernel_size threshold : Nat)
  | agingRemoved (i : SImg)
  deriving DecidableEq, Repr

/-- The mutable per-instance parameter dictionaries of NoiseReducer:
BILATERAL_PARAMS, NLM_PARAMS, DUST_PARAMS and MEDIAN_PARAMS flattened into
one record (the instance state). -/
structure NRState where
  bilateral_d : Nat
  bilateral_sigma_color : Nat
  bilateral_sigma_space : Nat
  nlm_h : Nat
  nlm_template_window_size : Nat
  nlm_search_window_size : Nat
  dust_kernel_size : Nat
  dust_threshold : Nat
  median_kernel_size : Nat
  deriving DecidableEq, Repr

/-- The parameter values set by NoiseReducer.__init__. -/
def initState : NRState :=
  { bilateral_d := 9
    bilateral_sigma_color := 75
    bilateral_sigma_space := 75
    nlm_h := 10
    nlm_template_window_size := 7
    nlm_search_window_size := 21
    dust_kernel_size := 3
    dust_threshold := 30
    median_kernel_size := 3 }

/-- The method argument of reduce_noise. -/
inductive Method where
  | bilateral
  | nlm
  | gaussian
  deriving DecidableEq, Repr

/-- The strength argument of reduce_noise. -/
inductive Strength where
  | low
  | medium
  | high
  deriving DecidableEq, Repr

/-- NoiseReducer.reduce_noise: first overwrite the instance parameter fields
according to strength (low and high assign fixed presets; medium leaves
whatever values the fields currently hold), then invoke the selected filter
with the instance's current parameters. Returns the updated instance state
together with the result. -/
def reduce_noise (s : NRState) (image : SImg) (method : Method) (strength : Strength) :
    NRState × SImg :=
  let s :=
    match strength with
    | Strength.low =>
      { s with bilateral_sigma_color := 50, bilateral_sigma_space := 50, nlm_h := 5 }
    | Strength.high =>
      { s with bilateral_sigma_color := 100, bilateral_sigma_space := 100, nlm_h := 15 }
    | Strength.medium => s
  let result :=
    match method with
    | Method.nlm =>
      SImg.nlmDenoise image s.nlm_h s.nlm_template_window_size s.nlm_search_window_size
    | Method.gaussian =>
      let kernel_size : Nat :=
        match strength with
        | Strength.medium => 5
        | Strength.low => 3
        | Strength.high => 7
      SImg.gaussianBlur image kernel_size
    | Method.bilateral =>
      SImg.bilateralFilter image s.bilateral_d s.bilateral_sigma_color s.bilateral_sigma_space
  (s, result)

/-- NoiseReducer.remove_dust_and_scratches: median-mask-inpaint composite
reading DUST_PARAMS from the instance state; mutates nothing. -/
def remove_dust_and_scratches (s : NRState) (image : SImg) : SImg :=
  SImg.dustRemoved image s.dust_kernel_size s.dust_threshold

/-- NoiseReducer.apply_median_filter, reading MEDIAN_PARAMS. -/
def apply_median_filter (s : NRState) (image : SImg) : SImg :=
  SImg.medianBlur image s.median_kernel_size

/-- NoiseReducer.remove_aging_artifacts: CLAHE plus chroma gain; fixed
parameters, mutates nothing. -/
def remove_aging_artifacts (image : SImg) : SImg :=
  SImg.agingRemoved image

/-- NoiseReducer.process_vintage_photo: copy, optional median+dust pass,
optional denoise (a falsy denoise_method skips the stage), optional aging
correction. Returns the updated instance state and the result. -/
def process_vintage_photo (s : NRState) (image : SImg) (remove_dust remove_aging : Bool)
    (denoise_method : Option Method) (strength : Strength) : NRState × SImg :=
  let result := SImg.copy image
  let result :=
    if remove_dust then remove_dust_and_scratches s (apply_median_filter s result)
    else result
  let step :=
    match denoise_method with
    | some m => reduce_noise s result m strength
    | none => (s, result)
  let s := step.fst
  let result := step.snd
  let result := if remove_aging then remove_aging_artifacts result else result
  (s, result)

/-- NoiseReducer.process_stereo_pair: process the left image, then the right
image, through process_vintage_photo with identical options, threading the
(mutable) instance state from the left call into the right call. -/
def process_stereo_pair (s : NRState) (left_image right_image : SImg)
    (remove_dust remove_aging : Bool) (denoise_method : Option Method) (strength : Strength) :
    NRState × SImg × SImg :=
  let stepL := process_vintage_photo s left_image remove_dust remove_aging denoise_method strength
  let stepR :=
    process_vintage_photo stepL.fst right_image remove_dust remove_aging denoise_method strength
  (stepR.fst, stepL.snd, stepR.snd)

end NoiseReducer

namespace MainCtl

/-- The exceptions that can escape a stage inside the try block of
main.process_slide and reach its except handler: image loading
(FileNotFoundError / ValueError) and stereo-pair extraction (ValueError on a
wrong window count). Output saving contributes no constructor here:
ImageSaver.save_image catches its own exceptions and returns None, so a
failed write never raises into the try block. -/
inductive StageError where
  | loadFailure (msg : String)
  | windowCountFailure (found : Nat)
  deriving DecidableEq, Repr

/-- Human-readable text of each stage exception (the str(e) of the Python
exception). -/
def StageError.message : StageError → String
  | StageError.loadFailure msg => msg
  | StageError.windowCountFailure found =>
    "Expected 2 windows, found " ++ toString found

/-- The external world a single run interacts with: what the image loader
returns for the input path, what the cv2 segmentation produces on the loaded
image, the conversion result, whether cv2.imwrite succeeds on the converted
image, and the output path. Images are opaque tokens because the run
controller never inspects pixel data itself. -/
structure RunEnv where
  loadResult : Except StageError Nat
  extractResult : Nat → Except StageError (Nat × Nat)
  vrImage : Nat × Nat → Nat
  imwriteOk : Nat → Bool
  outputPath : String

/-- ImageSaver.save_image: attempt cv2.imwrite; on success return the file
path, and on a failed write the method's own except handler catches the
ValueError, prints its own message and returns None — no exception escapes
to the caller. -/
def save_image (env : RunEnv) (vr : Nat) (filename : String) : Option String :=
  if env.imwriteOk vr then some filename else none

/-- Observable outcome of main.process_slide: the error message printed by
the except handler (if any) and whether an output file was written. -/
structure Outcome where
  errorMessage : Option String
  outputWritten : Bool
  deriving DecidableEq, Repr

/-- The body of the try block in main.process_slide: load, extract the
stereo pair, convert (a total transformation) and call save_image, which
never raises; a load or extraction exception aborts the rest, so no output
is written after a failure. Returns whether the save call wrote the output
file. -/
def trySlide (env : RunEnv) : Except StageError Bool := do
  let image ← env.loadResult
  let pair ← env.extractResult image
  let vr := env.vrImage pair
  let saved := save_image env vr env.outputPath
  return saved.isSome

/-- main.process_slide: run the try block; a load or extraction exception is
caught by the except handler, which prints a message and returns normally.
When the try block runs to the end the controller prints the success
messages even if the saver failed internally and wrote nothing. -/
def process_slide (env : RunEnv) : Outcome :=
  match trySlide env with
  | Except.ok written => { errorMessage := none, outputWritten := written }
  | Except.error e =>
    { errorMessage := some ("Error processing slide: " ++ e.message)
      outputWritten := false }

/-- Exit code of a Python process whose main either returns normally (0) or
lets an exception escape (nonzero). -/
def pythonExitCode (run : Except StageError Outcome) : Nat :=
  match run with
  | Except.ok _ => 0
  | Except.error _ => 1

/-- main.main: parse arguments and call process_slide; process_slide never
raises (its except handler catches every stage exception), so main always
returns normally. -/
def mainRun (env : RunEnv) : Except StageError Outcome :=
  Except.ok (process_slide env)

/-- The exit code of a run of main.py on the given environment. -/
def mainExitCode (env : RunEnv) : Nat :=
  pythonExitCode (mainRun env)

end MainCtl

namespace VRConverter

/-- An image for the geometric VR stage: height, width and real-valued pixel
intensities addressed by integer (row, col); the float arithmetic of the
numpy coordinate maps is modelled by exact real arithmetic. -/
structure RImg where
  height : Nat
  width : Nat
  pix : ℤ → ℤ → ℝ

/-- Pixel fetch with the BORDER_CONSTANT(0) policy used by cv2.remap for
out-of-range source coordinates. Argument order is (x, y). -/
def sampleZero (img : RImg) (x y : ℤ) : ℝ :=
  if 0 ≤ x ∧ x < (img.width : ℤ) ∧ 0 ≤ y ∧ y < (img.height : ℤ) then img.pix y x else 0

/-- Pixel fetch with edge clamping, the out-of-range policy of cv2.resize.
Argument order is (x, y). -/
def sampleClamp (img : RImg) (x y : ℤ) : ℝ :=
  img.pix (min (max y 0) ((img.height : ℤ) - 1)) (min (max x 0) ((img.width : ℤ) - 1))

/-- Bilinear interpolation of a sampling function at a real (x, y)
coordinate: the INTER_LINEAR resampling rule. -/
noncomputable def bilinearSample (f : ℤ → ℤ → ℝ) (x y : ℝ) : ℝ :=
  let x0 : ℤ := ⌊x⌋
  let y0 : ℤ := ⌊y⌋
  let fx : ℝ := x - x0
  let fy : ℝ := y - y0
  (1 - fy) * ((1 - fx) * f x0 y0 + fx * f (x0 + 1) y0) +
    fy * ((1 - fx) * f x0 (y0 + 1) + fx * f (x0 + 1) (y0 + 1))

/-- cv2.remap with INTER_LINEAR: for every destination pixel (i, j), sample
the input at the source coordinate given by the maps, with zero border. -/
noncomputable def remap (img : RImg) (map_x map_y : ℤ → ℤ → ℝ) : RImg :=
  { height := img.height
    width := img.width
    pix := fun i j => bilinearSample (sampleZero img) (map_x i j) (map_y i j) }

/-- np.arctan2 y x, the angle of the point (x, y): the mathematical function
is the principal argument of the complex number x + y*I. -/
noncomputable def atan2 (y x : ℝ) : ℝ :=
  Complex.arg ⟨x, y⟩

/-- center_x = cols / 2 in apply_barrel_distortion. -/
noncomputable def center_x (cols : Nat) : ℝ :=
  (cols : ℝ) / 2

/-- center_y = rows / 2 in apply_barrel_distortion. -/
noncomputable def center_y (rows : Nat) : ℝ :=
  (rows : ℝ) / 2

/-- The radius r = sqrt(x**2 + y**2) of destination pixel (i, j) measured
from the image center. -/
noncomputable def radiusAt (rows cols : Nat) (i j : ℤ) : ℝ :=
  Real.sqrt (((j : ℝ) - center_x cols) ^ 2 + ((i : ℝ) - center_y rows) ^ 2)

/-- The distorted radius r_distorted = r * (1 + strength * (r / center_x)**2)
of apply_barrel_distortion. -/
noncomputable def distortedRadius (rows cols : Nat) (strength : ℝ) (i j : ℤ) : ℝ :=
  radiusAt rows cols i j * (1 + strength * (radiusAt rows cols i j / center_x cols) ^ 2)

/-- The source x coordinate map x_distorted = center_x + r_distorted * cos(theta)
of apply_barrel_distortion, with theta = arctan2(y, x). -/
noncomputable def map_x_distorted (rows cols : Nat) (strength : ℝ) (i j : ℤ) : ℝ :=
  center_x cols +
    distortedRadius rows cols strength i j *
      Real.cos (atan2 ((i : ℝ) - center_y rows) ((j : ℝ) - center_x cols))

/-- The source y coordinate map y_distorted = center_y + r_distorted * sin(theta)
of apply_barrel_distortion. -/
noncomputable def map_y_distorted (rows cols : Nat) (strength : ℝ) (i j : ℤ) : ℝ :=
  center_y rows +
    distortedRadius rows cols strength i j *
      Real.sin (atan2 ((i : ℝ) - center_y rows) ((j : ℝ) - center_x cols))

/-- VRConverter.apply_barrel_distortion: build the radial distortion
coordinate maps over the destination grid and remap the image through them
with bilinear interpolation. -/
noncomputable def apply_barrel_distortion (image : RImg) (strength : ℝ) : RImg :=
  remap image (map_x_distorted image.height image.width strength)
    (map_y_distorted image.height image.width strength)

/-- VRConverter.resize_for_vr: cv2.resize to (target_width, target_height)
with INTER_LINEAR; destination pixel (i, j) samples the source at the
half-pixel-aligned coordinate ((j + 1/2) * w/tw - 1/2, (i + 1/2) * h/th - 1/2)
with edge clamping. -/
noncomputable def resize_for_vr (target_width target_height : Nat) (image : RImg) : RImg :=
  { height := target_height
    width := target_width
    pix := fun i j =>
      bilinearSample (sampleClamp image)
        (((j : ℝ) + 1 / 2) * ((image.width : ℝ) / (target_width : ℝ)) - 1 / 2)
        (((i : ℝ) + 1 / 2) * ((image.height : ℝ) / (target_height : ℝ)) - 1 / 2) }

/-- Error raised when np.hstack receives rows of different heights (the
condition the specification names DimensionMismatchError). -/
inductive VRError where
  | dimensionMismatch
  deriving DecidableEq, Repr

/-- np.hstack of two images: requires equal heights, concatenates columns
with the first image on the left. -/
def hstackImg (a b : RImg) : Except VRError RImg :=
  if a.height = b.height then
    Except.ok
      { height := a.height
        width := a.width + b.width
        pix := fun i j => if j < (a.width : ℤ) then a.pix i j else b.pix i (j - (a.width : ℤ)) }
  else Except.error VRError.dimensionMismatch

/-- The per-eye pipeline inside VRConverter.create_vr_image: resize to the
target dimensions, then apply barrel distortion (strength 0.6, modelled as
the exact rational 3/5) when requested. -/
noncomputable def projectEye (target_width target_height : Nat) (apply_distortion : Bool)
    (image : RImg) : RImg :=
  let vr := resize_for_vr target_width target_height image
  if apply_distortion then apply_barrel_distortion vr (3 / 5) else vr

/-- VRConverter.create_vr_image: resize both eyes, optionally distort both,
and horizontally stack them, left eye first. -/
noncomputable def create_vr_image (target_width target_height : Nat)
    (left_image right_image : RImg) (apply_distortion : Bool) : Except VRError RImg :=
  hstackImg (projectEye target_width target_height apply_distortion left_image)
    (projectEye target_width target_height apply_distortion right_image)

end VRConverter

/-- Modelled from the spec's words, for comparison with the source-derived
acceptRect: accept a candidate rectangle iff its width and height lie
strictly between 0.1 times the image width and 0.4 times the image width
(real-valued bounds, no integer truncation) and the aspect-ratio error is
strictly below the tolerance. -/
def specAcceptRect (img_width : Nat) (r : MountDetector.Rect) : Prop :=
  (img_width : ℚ) * MountDetector.MIN_WINDOW_RATIO < (r.w : ℚ) ∧
  (r.w : ℚ) < (img_width : ℚ) * MountDetector.MAX_WINDOW_RATIO ∧
  (img_width : ℚ) * MountDetector.MIN_WINDOW_RATIO < (r.h : ℚ) ∧
  (r.h : ℚ) < (img_width : ℚ) * MountDetector.MAX_WINDOW_RATIO ∧
  |1 - (r.w : ℚ) / (r.h : ℚ)| < MountDetector.ASPECT_RATIO_TOL

instance (img_width : Nat) (r : MountDetector.Rect) : Decidable (specAcceptRect img_width r) := by
  unfold specAcceptRect
  infer_instance

/-- Modelled from the spec's words, for comparison with the stored window
image: crop the original image to the candidate rectangle expanded by a
2-pixel margin on every side, clamped to the image bounds (the spec describes
the inner staple-margin crop as disabled by default, so the stored window
would equal this expanded crop). -/
def specExpandedCrop {α : Type} (img : PImg α) (r : MountDetector.Rect) : PImg α :=
  npCrop2 img (max ((r.y : Int) - 2) 0) (min ((r.y : Int) + r.h + 2) (img.height : Int))
    (max ((r.x : Int) - 2) 0) (min ((r.x : Int) + r.w + 2) (img.width : Int))

/-- A concrete 100 by 200 test image with distinct pixel values. -/
def probeImg : PImg Nat :=
  { height := 100, width := 200, pix := fun i j => i * 1000 + j }

/-- A concrete candidate rectangle accepted by the detector on probeImg. -/
def probeRect : MountDetector.Rect :=
  { x := 10, y := 10, w := 50, h := 50 }

/-- A concrete 2 by 3 real-valued test image. -/
noncomputable def probeRImg : VRConverter.RImg :=
  { height := 2, width := 3, pix := fun i j => ((i + 2 * j : ℤ) : ℝ) }

namespace MountDetector

theorem mem_insertByX {α : Type} (w v : Window α) (l : List (Window α)) :
    v ∈ insertByX w l ↔ v = w ∨ v ∈ l := by
  induction l with
  | nil => simp [insertByX]
  | cons a as ih =>
    by_cases h : a.x < w.x
    · simp only [insertByX, if_pos h, List.mem_cons, ih]
      tauto
    · simp only [insertByX, if_neg h, List.mem_cons]

theorem insertByX_pairwise {α : Type} (w : Window α) (l : List (Window α))
    (h : l.Pairwise (fun a b => a.x ≤ b.x)) :
    (insertByX w l).Pairwise (fun a b => a.x ≤ b.x) := by
  induction l with
  | nil => simp [insertByX]
  | cons a as ih =>
    rcases List.pairwise_cons.mp h with ⟨ha, has⟩
    by_cases hx : a.x < w.x
    · rw [insertByX, if_pos hx]
      refine List.pairwise_cons.mpr ⟨?_, ih has⟩
      intro b hb
      rcases (mem_insertByX w b as).mp hb with h1 | h2
      · exact h1 ▸ le_of_lt hx
      · exact ha b h2
    · rw [insertByX, if_neg hx]
      refine List.pairwise_cons.mpr ⟨?_, h⟩
      intro b hb
      rcases List.mem_cons.mp hb with h1 | h2
      · exact h1 ▸ le_of_not_lt hx
      · exact le_trans (le_of_not_lt hx) (ha b h2)

theorem sortByX_pairwise {α : Type} (l : List (Window α)) :
    (sortByX l).Pairwise (fun a b => a.x ≤ b.x) := by
  induction l with
  | nil => simp [sortByX]
  | cons a as ih => exact insertByX_pairwise a (sortByX as) ih

theorem mem_sortByX {α : Type} (v : Window α) (l : List (Window α)) :
    v ∈ sortByX l ↔ v ∈ l := by
  induction l with
  | nil => simp [sortByX]
  | cons a as ih =>
    rw [sortByX, mem_insertByX, ih, List.mem_cons]

theorem detectLoop_eq {α : Type} (image : PImg α) (W : Nat) (rects : List Rect) :
    detectLoop image W rects = (rects.filter (acceptRect W)).map (mkWindow image) := by
  induction rects with
  | nil => rfl
  | cons r rs ih =>
    by_cases h : acceptRect W r = true
    · simp [detectLoop, List.filter_cons, h, ih]
    · simp [detectLoop, List.filter_cons, h, ih]

theorem acceptRect_iff (W : Nat) (r : Rect) :
    acceptRect W r = true ↔
      (⌊(W : ℚ) * (1 / 10)⌋ < (r.w : Int) ∧ (r.w : Int) < ⌊(W : ℚ) * (4 / 10)⌋ ∧
       ⌊(W : ℚ) * (1 / 10)⌋ < (r.h : Int) ∧ (r.h : Int) < ⌊(W : ℚ) * (4 / 10)⌋ ∧
       |1 - (r.w : ℚ) / (r.h : ℚ)| < (1 / 10 : ℚ)) := by
  simp [acceptRect, min_window_size, max_window_size, MIN_WINDOW_RATIO, MAX_WINDOW_RATIO,
    ASPECT_RATIO_TOL, and_assoc]

theorem acceptRect_c4rect : acceptRect 26 { x := 0, y := 0, w := 10, h := 10 } = false := by
  rw [Bool.eq_false_iff, Ne, acceptRect_iff]
  intro h
  have h2 := h.2.1
  norm_num at h2

theorem acceptRect_probeRect : acceptRect 200 probeRect = true := by
  rw [acceptRect_iff]
  norm_num [probeRect]

theorem detect_c4rect :
    detect_windows (PImg.mk 50 26 fun i j => i * 1000 + j) 26
      [{ x := 0, y := 0, w := 10, h := 10 }] = [] := by
  simp [detect_windows, detectLoop, acceptRect_c4rect, sortByX]

theorem detect_probe :
    detect_windows probeImg 200 [probeRect] = [mkWindow probeImg probeRect] := by
  simp [detect_windows, detectLoop, acceptRect_probeRect, sortByX, insertByX]

end MountDetector

open MountDetector NoiseReducer MainCtl VRConverter

/-- C1: the Window Standardizer fails with the window-count error unless the
input list has exactly two windows: for every list whose length is not 2 it
returns that error carrying the count found, it succeeds exactly on
two-element lists, and the stereo-pair extractor likewise returns that error
and produces no stereo pair when detection found a count other than 2. -/
theorem claim_C1_window_count {α : Type} (ws : List (Window α)) (image : PImg α)
    (W : Nat) (rects : List Rect) :
    (ws.length ≠ 2 →
      standardize_windows ws = Except.error (MountError.windowCountError ws.length)) ∧
    ((∃ out, standardize_windows ws = Except.ok out) ↔ ws.length = 2) ∧
    ((detect_windows image W rects).length ≠ 2 →
      extract_stereo_pair image W rects =
        Except.error (MountError.windowCountError (detect_windows image W rects).length)) := by
  refine ⟨?_, ?_, ?_⟩
  · intro h
    rcases ws with _ | ⟨a, _ | ⟨b, _ | ⟨c, t⟩⟩⟩
    · rfl
    · rfl
    · exact absurd rfl h
    · rfl
  · constructor
    · rintro ⟨out, hout⟩
      rcases ws with _ | ⟨a, _ | ⟨b, _ | ⟨c, t⟩⟩⟩
      · exact absurd hout (by simp [standardize_windows])
      · exact absurd hout (by simp [standardize_windows])
      · rfl
      · exact absurd hout (by simp [standardize_windows])
    · intro h
      rcases ws with _ | ⟨a, _ | ⟨b, _ | ⟨c, t⟩⟩⟩
      · simp at h
      · simp at h
      · exact ⟨_, rfl⟩
      · simp at h
  · intro h
    simp only [extract_stereo_pair]
    rw [if_pos h]

/-- Witness for C1 at the empty window list and an empty rectangle list. -/
theorem claim_C1_window_count_witness :
    standardize_windows ([] : List (Window Nat)) =
      Except.error (MountError.windowCountError 0) ∧
    extract_stereo_pair probeImg 200 [] =
      Except.error (MountError.windowCountError 0) :=
  ⟨(claim_C1_window_count ([] : List (Window Nat)) probeImg 200 []).1 (by decide),
   (claim_C1_window_count ([] : List (Window Nat)) probeImg 200 []).2.2 (by decide)⟩

/-- C2: for every list of exactly two windows, standardization returns two
windows whose width and height both equal the minimum of the four input
dimensions, whose origins are the input origins translated by the centering
offsets (dim - target) / 2, and whose images are the corresponding centered
crops of the input window images. -/
theorem claim_C2_standardize {α : Type} (w1 w2 : Window α) :
    ∃ t v1 v2,
      t = min (min w1.width w2.width) (min w1.height w2.height) ∧
      standardize_windows [w1, w2] = Except.ok [v1, v2] ∧
      v1.width = t ∧ v1.height = t ∧ v2.width = t ∧ v2.height = t ∧
      v1.x = w1.x + (w1.width - t) / 2 ∧ v1.y = w1.y + (w1.height - t) / 2 ∧
      v2.x = w2.x + (w2.width - t) / 2 ∧ v2.y = w2.y + (w2.height - t) / 2 ∧
      v1.image = npCrop2 w1.image (((w1.height - t) / 2 : Nat) : Int)
        ((((w1.height - t) / 2 : Nat) : Int) + (t : Nat))
        (((w1.width - t) / 2 : Nat) : Int)
        ((((w1.width - t) / 2 : Nat) : Int) + (t : Nat)) ∧
      v2.image = npCrop2 w2.image (((w2.height - t) / 2 : Nat) : Int)
        ((((w2.height - t) / 2 : Nat) : Int) + (t : Nat))
        (((w2.width - t) / 2 : Nat) : Int)
        ((((w2.width - t) / 2 : Nat) : Int) + (t : Nat)) :=
  ⟨_, _, _, rfl, rfl, rfl, rfl, rfl, rfl, rfl, rfl, rfl, rfl, rfl, rfl⟩

/-- C4 counterexample: with image width 26 and a 10 by 10 bounding
rectangle, the spec-side acceptance predicate with real-valued bounds holds
(10 lies strictly between 2.6 and 10.4 and the aspect error is 0), yet the
extractor rejects the rectangle and returns no window, because the code
truncates the bounds to integers and requires 10 < int(0.4 * 26) = 10. -/
theorem claim_C4_counterexample :
    specAcceptRect 26 { x := 0, y := 0, w := 10, h := 10 } ∧
    detect_windows (PImg.mk 50 26 fun i j => i * 1000 + j) 26
      [{ x := 0, y := 0, w := 10, h := 10 }] = [] := by
  constructor
  · simp only [specAcceptRect, MIN_WINDOW_RATIO, MAX_WINDOW_RATIO, ASPECT_RATIO_TOL]
    norm_num
  · exact detect_c4rect

/-- C4 amended: a rectangle is accepted iff its width and height lie
strictly between the integer-truncated bounds, namely the floor of
0.1 times the image width and the floor of 0.4 times the image width, and
its aspect-ratio error is strictly below 0.1; the returned window list is
the accepted rectangles' windows sorted ascending by x. -/
theorem claim_C4_extractor {α : Type} (image : PImg α) (W : Nat) (rects : List Rect) :
    (∀ r : Rect, acceptRect W r = true ↔
      (⌊(W : ℚ) * (1 / 10)⌋ < (r.w : Int) ∧ (r.w : Int) < ⌊(W : ℚ) * (4 / 10)⌋ ∧
       ⌊(W : ℚ) * (1 / 10)⌋ < (r.h : Int) ∧ (r.h : Int) < ⌊(W : ℚ) * (4 / 10)⌋ ∧
       |1 - (r.w : ℚ) / (r.h : ℚ)| < (1 / 10 : ℚ))) ∧
    detect_windows image W rects = sortByX ((rects.filter (acceptRect W)).map (mkWindow image)) ∧
    List.Pairwise (fun a b => a.x ≤ b.x) (detect_windows image W rects) := by
  refine ⟨?_, ?_, ?_⟩
  · intro r
    simp [acceptRect, min_window_size, max_window_size, MIN_WINDOW_RATIO, MAX_WINDOW_RATIO,
      ASPECT_RATIO_TOL, and_assoc]
  · rw [detect_windows, detectLoop_eq]
  · exact sortByX_pairwise _

/-- Witness for C4 amended: on probeImg with image width 200, a 50 by 50
rectangle at (10, 10) is accepted (20 < 50 < 80, zero aspect error) and the
detector output is the sorted singleton of its window. -/
theorem claim_C4_extractor_witness :
    (acceptRect 200 probeRect = true ↔
      (⌊(200 : ℚ) * (1 / 10)⌋ < (probeRect.w : Int) ∧
       (probeRect.w : Int) < ⌊(200 : ℚ) * (4 / 10)⌋ ∧
       ⌊(200 : ℚ) * (1 / 10)⌋ < (probeRect.h : Int) ∧
       (probeRect.h : Int) < ⌊(200 : ℚ) * (4 / 10)⌋ ∧
       |1 - (probeRect.w : ℚ) / (probeRect.h : ℚ)| < (1 / 10 : ℚ))) ∧
    List.Pairwise (fun a b => a.x ≤ b.x) (detect_windows probeImg 200 [probeRect]) :=
  ⟨(claim_C4_extractor probeImg 200 [probeRect]).1 probeRect,
   (claim_C4_extractor probeImg 200 [probeRect]).2.2⟩

/-- C5 counterexample: on probeImg the accepted 50 by 50 candidate at
(10, 10) yields a stored window image of width 20 (the exact rectangle crop
with the 15-pixel staple margin always removed), while the spec's 2-pixel
expanded clamped crop has width 54; the stored image does not equal the
expanded crop, and no staple-margin switch exists to turn the inner crop
off. -/
theorem claim_C5_counterexample :
    ((detect_windows probeImg 200 [probeRect]).map fun w => w.image.width) = [20] ∧
    (specExpandedCrop probeImg probeRect).width = 54 ∧
    (detect_windows probeImg 200 [probeRect]).map Window.image ≠
      [specExpandedCrop probeImg probeRect] := by
  refine ⟨?_, by decide, ?_⟩
  · rw [detect_probe]
    decide
  · rw [detect_probe]
    intro h
    exact absurd (congrArg (List.map PImg.width) h) (by decide)

/-- C5 amended: for each accepted candidate rectangle, the extractor crops
the original image exactly to the bounding rectangle (no margin expansion)
and then always removes the fixed 15-pixel staple margin from every edge;
the stored window image is that staple-cropped rectangle crop, and the
window is among the detector's results. -/
theorem claim_C5_window_crop {α : Type} (image : PImg α) (W : Nat) (rects : List Rect)
    (r : Rect) (hmem : r ∈ rects) (hacc : acceptRect W r = true) :
    mkWindow image r ∈ detect_windows image W rects ∧
    (mkWindow image r).image =
      remove_staples (npCrop2 image (r.y : Int) ((r.y : Int) + r.h)
        (r.x : Int) ((r.x : Int) + r.w)) := by
  constructor
  · rw [detect_windows, mem_sortByX, detectLoop_eq]
    exact List.mem_map_of_mem (mkWindow image) (List.mem_filter.mpr ⟨hmem, hacc⟩)
  · simp [mkWindow]

/-- Witness for C5 amended at the concrete probe image and rectangle. -/
theorem claim_C5_window_crop_witness :
    (probeRect ∈ [probeRect] ∧ acceptRect 200 probeRect = true) ∧
    mkWindow probeImg probeRect ∈ detect_windows probeImg 200 [probeRect] :=
  ⟨⟨by decide, acceptRect_probeRect⟩,
   (claim_C5_window_crop probeImg 200 [probeRect] probeRect (by decide) acceptRect_probeRect).1⟩

/-- C8 counterexample: on a run whose image load fails, the controller prints
a human-readable message and writes no output, but the process exit code is 0
(the except handler swallows the exception and main returns normally), not
the nonzero code the claim requires. -/
theorem claim_C8_counterexample :
    (process_slide
        { loadResult := Except.error (StageError.loadFailure "Image file not found: missing.jpg")
          extractResult := fun n => Except.ok (n, n)
          vrImage := fun _ => 0
          imwriteOk := fun _ => true
          outputPath := "out.jpg" }).errorMessage =
      some "Error processing slide: Image file not found: missing.jpg" ∧
    (process_slide
        { loadResult := Except.error (StageError.loadFailure "Image file not found: missing.jpg")
          extractResult := fun n => Except.ok (n, n)
          vrImage := fun _ => 0
          imwriteOk := fun _ => true
          outputPath := "out.jpg" }).outputWritten = false ∧
    mainExitCode
        { loadResult := Except.error (StageError.loadFailure "Image file not found: missing.jpg")
          extractResult := fun n => Except.ok (n, n)
          vrImage := fun _ => 0
          imwriteOk := fun _ => true
          outputPath := "out.jpg" } = 0 :=
  ⟨rfl, rfl, rfl⟩

/-- C8 amended: on any core failure during a run (load, detection,
standardization, conversion — the stages whose exceptions reach the
controller's handler), the controller reports the failure with a
human-readable message and writes no output file, and when the try block
completes the controller reports no error and the output is written exactly
when the write succeeded; but the process exit code is 0 in every case,
success or failure, because the except handler catches every stage exception
and main returns normally. -/
theorem claim_C8_run_controller (env : RunEnv) :
    mainExitCode env = 0 ∧
    (∀ e, trySlide env = Except.error e →
      process_slide env =
        { errorMessage := some ("Error processing slide: " ++ e.message)
          outputWritten := false }) ∧
    (∀ b, trySlide env = Except.ok b →
      process_slide env = { errorMessage := none, outputWritten := b }) := by
  refine ⟨rfl, ?_, ?_⟩
  · intro e he
    simp [process_slide, he]
  · intro b hb
    simp [process_slide, hb]

/-- Witness for C8 amended at a run whose extraction stage finds a single
window: the controller prints the message and writes no output. -/
theorem claim_C8_run_controller_witness :
    process_slide
        { loadResult := Except.ok 7
          extractResult := fun _ => Except.error (StageError.windowCountFailure 1)
          vrImage := fun _ => 3
          imwriteOk := fun _ => true
          outputPath := "out.jpg" } =
      { errorMessage := some "Error processing slide: Expected 2 windows, found 1"
        outputWritten := false } :=
  (claim_C8_run_controller
      { loadResult := Except.ok 7
        extractResult := fun _ => Except.error (StageError.windowCountFailure 1)
        vrImage := fun _ => 3
        imwriteOk := fun _ => true
        outputPath := "out.jpg" }).2.1
    (StageError.windowCountFailure 1) rfl

/-- Save failures stay inside the saver: when load and extraction succeed
but cv2.imwrite fails, ImageSaver.save_image swallows the error and returns
None, so the controller reports no error even though no output file was
written. -/
theorem save_failure_stays_in_saver (env : RunEnv) (n : Nat) (p : Nat × Nat)
    (hl : env.loadResult = Except.ok n) (he : env.extractResult n = Except.ok p)
    (hw : env.imwriteOk (env.vrImage p) = false) :
    process_slide env = { errorMessage := none, outputWritten := false } := by
  have ht : trySlide env = Except.ok false := by
    simp [trySlide, hl, he, save_image, hw, bind, Except.bind, Functor.map, Except.map,
      pure, Except.pure]
  simp [process_slide, ht]

/-- C9 counterexample: the two eye sub-pipelines do read and mutate shared
state, contrary to the claim: processing a single eye through
process_vintage_photo with bilateral denoising at low strength overwrites the
shared NoiseReducer instance parameters, and processing a stereo pair leaves
the instance state changed as well. -/
theorem claim_C9_counterexample :
    (process_vintage_photo initState (SImg.raw 0) true true (some Method.bilateral)
        Strength.low).fst ≠ initState ∧
    (process_stereo_pair initState (SImg.raw 0) (SImg.raw 1) true true
        (some Method.bilateral) Strength.low).fst ≠ initState := by
  exact ⟨by decide, by decide⟩

/-- C9 amended: the sub-pipelines share the NoiseReducer instance's mutable
parameter state, which reduce_noise overwrites; but because the overwrite is
determined by the strength argument alone and both eyes are processed with
identical options, the right eye's output is the same whether or not the
left eye was processed first. -/
theorem claim_C9_order_independent (s : NRState) (l r : SImg) (rd ra : Bool)
    (dm : Option Method) (st : Strength) :
    (process_stereo_pair s l r rd ra dm st).snd.snd =
      (process_vintage_photo s r rd ra dm st).snd := by
  rcases dm with _ | m
  · rfl
  · cases st
    · cases m <;> cases rd <;> cases ra <;>
        simp [process_stereo_pair, process_vintage_photo, reduce_noise,
          apply_median_filter, remove_dust_and_scratches, remove_aging_artifacts]
    · rfl
    · cases m <;> cases rd <;> cases ra <;>
        simp [process_stereo_pair, process_vintage_photo, reduce_noise,
          apply_median_filter, remove_dust_and_scratches, remove_aging_artifacts]

/-- C10: reduce_noise is not a pure function of its arguments: a call at low
strength overwrites the instance's bilateral sigma fields and the NLM h
field, a later call at medium strength leaves those overwritten values in
place rather than restoring the 75/75/10 defaults, and consequently the same
medium-strength bilateral call on the same image returns a different result
on the mutated instance than on a fresh one. -/
theorem claim_C10_stateful_reduce_noise :
    (reduce_noise initState (SImg.raw 0) Method.bilateral Strength.low).fst.bilateral_sigma_color
        = 50 ∧
    (reduce_noise initState (SImg.raw 0) Method.bilateral Strength.low).fst.bilateral_sigma_space
        = 50 ∧
    (reduce_noise initState (SImg.raw 0) Method.bilateral Strength.low).fst.nlm_h = 5 ∧
    initState.bilateral_sigma_color = 75 ∧ initState.bilateral_sigma_space = 75 ∧
    initState.nlm_h = 10 ∧
    (reduce_noise ((reduce_noise initState (SImg.raw 0) Method.bilateral Strength.low).fst)
        (SImg.raw 1) Method.bilateral Strength.medium).fst =
      (reduce_noise initState (SImg.raw 0) Method.bilateral Strength.low).fst ∧
    (reduce_noise ((reduce_noise initState (SImg.raw 0) Method.bilateral Strength.low).fst)
        (SImg.raw 1) Method.bilateral Strength.medium).snd ≠
      (reduce_noise initState (SImg.raw 1) Method.bilateral Strength.medium).snd := by
  decide

namespace VRConverter

theorem projectEye_height (tw th : Nat) (d : Bool) (img : RImg) :
    (projectEye tw th d img).height = th := by
  cases d <;> rfl

theorem projectEye_width (tw th : Nat) (d : Bool) (img : RImg) :
    (projectEye tw th d img).width = tw := by
  cases d <;> rfl

theorem create_vr_image_eq (tw th : Nat) (l r : RImg) (d : Bool) :
    create_vr_image tw th l r d = Except.ok
      { height := th
        width := tw + tw
        pix := fun i j =>
          if j < (tw : Int) then (projectEye tw th d l).pix i j
          else (projectEye tw th d r).pix i (j - (tw : Int)) } := by
  have hL := projectEye_height tw th d l
  have hR := projectEye_height tw th d r
  have wL := projectEye_width tw th d l
  have wR := projectEye_width tw th d r
  simp [create_vr_image, hstackImg, hL, hR, wL, wR]

end VRConverter

/-- C3: for every pair of eye images, the compositor succeeds and its output
has width exactly twice the per-eye target width and height exactly the
target height, and each output pixel comes from the projected left eye on
columns below the target width and from the projected right eye (shifted by
the target width) on the remaining columns: the horizontal concatenation
with the left image first. -/
theorem claim_C3_compositor (tw th : Nat) (l r : RImg) (d : Bool) :
    ∃ out, create_vr_image tw th l r d = Except.ok out ∧
      out.width = 2 * tw ∧ out.height = th ∧
      ∀ i j : Int, out.pix i j =
        if j < (tw : Int) then (projectEye tw th d l).pix i j
        else (projectEye tw th d r).pix i (j - (tw : Int)) :=
  ⟨_, create_vr_image_eq tw th l r d, (two_mul tw).symm, rfl, fun _ _ => rfl⟩

/-- C7 counterexample: two input images of heights 10 and 20 differ in
height, yet the compositor succeeds on them instead of failing with the
dimension-mismatch error: both inputs are resized to the target dimensions
before stacking, so the mismatch check can never fire. -/
theorem claim_C7_counterexample :
    (RImg.mk 10 5 fun _ _ => 0).height ≠ (RImg.mk 20 5 fun _ _ => 0).height ∧
    (create_vr_image 4 3 (RImg.mk 10 5 fun _ _ => 0) (RImg.mk 20 5 fun _ _ => 0)
        false).isOk = true :=
  ⟨by decide, rfl⟩

/-- C7 amended: the compositor never fails: whatever the heights of its two
inputs (equal or not), both are first resized to the target dimensions, the
stacked heights always match, and the call succeeds. -/
theorem claim_C7_no_mismatch (tw th : Nat) (l r : RImg) (d : Bool) :
    (create_vr_image tw th l r d).isOk = true := by
  rw [create_vr_image_eq]
  rfl

namespace VRConverter

theorem radius_mul_cos (dx dy : ℝ) :
    Real.sqrt (dx ^ 2 + dy ^ 2) * Real.cos (atan2 dy dx) = dx := by
  have habs : Complex.abs ⟨dx, dy⟩ = Real.sqrt (dx ^ 2 + dy ^ 2) := by
    rw [Complex.abs_apply, Complex.normSq_mk, ← pow_two dx, ← pow_two dy]
  by_cases hz : (⟨dx, dy⟩ : ℂ) = 0
  · have hdx : dx = 0 := by simpa using congrArg Complex.re hz
    have hdy : dy = 0 := by simpa using congrArg Complex.im hz
    subst hdx
    subst hdy
    simp
  · have hcos : Real.cos (Complex.arg ⟨dx, dy⟩) = dx / Complex.abs ⟨dx, dy⟩ :=
      Complex.cos_arg hz
    have hne : Complex.abs ⟨dx, dy⟩ ≠ 0 := fun h => hz (Complex.abs.eq_zero.mp h)
    unfold atan2
    rw [hcos, ← habs, mul_comm, div_mul_cancel₀ dx hne]

theorem radius_mul_sin (dx dy : ℝ) :
    Real.sqrt (dx ^ 2 + dy ^ 2) * Real.sin (atan2 dy dx) = dy := by
  have habs : Complex.abs ⟨dx, dy⟩ = Real.sqrt (dx ^ 2 + dy ^ 2) := by
    rw [Complex.abs_apply, Complex.normSq_mk, ← pow_two dx, ← pow_two dy]
  by_cases hz : (⟨dx, dy⟩ : ℂ) = 0
  · have hdx : dx = 0 := by simpa using congrArg Complex.re hz
    have hdy : dy = 0 := by simpa using congrArg Complex.im hz
    subst hdx
    subst hdy
    simp
  · have hsin : Real.sin (Complex.arg ⟨dx, dy⟩) = dy / Complex.abs ⟨dx, dy⟩ :=
      Complex.sin_arg ⟨dx, dy⟩
    have hne : Complex.abs ⟨dx, dy⟩ ≠ 0 := fun h => hz (Complex.abs.eq_zero.mp h)
    unfold atan2
    rw [hsin, ← habs, mul_comm, div_mul_cancel₀ dy hne]

theorem map_x_distorted_zero (rows cols : Nat) (i j : Int) :
    map_x_distorted rows cols 0 i j = (j : ℝ) := by
  unfold map_x_distorted distortedRadius radiusAt
  simp only [zero_mul, add_zero, mul_one]
  rw [radius_mul_cos]
  ring

theorem map_y_distorted_zero (rows cols : Nat) (i j : Int) :
    map_y_distorted rows cols 0 i j = (i : ℝ) := by
  unfold map_y_distorted distortedRadius radiusAt
  simp only [zero_mul, add_zero, mul_one]
  rw [radius_mul_sin]
  ring

theorem bilinearSample_intCast (f : Int → Int → ℝ) (m n : Int) :
    bilinearSample f (m : ℝ) (n : ℝ) = f m n := by
  unfold bilinearSample
  simp [Int.floor_intCast]

end VRConverter

/-- C6: applying the radial distortion with strength 0 is the identity
mapping: the distorted radius equals the radius at every destination pixel,
the output dimensions equal the input dimensions, and every in-range output
pixel equals the corresponding input pixel exactly. -/
theorem claim_C6_identity_at_zero_strength (img : RImg) (i j : Int)
    (hi0 : 0 ≤ i) (hi : i < (img.height : Int)) (hj0 : 0 ≤ j) (hj : j < (img.width : Int)) :
    distortedRadius img.height img.width 0 i j = radiusAt img.height img.width i j ∧
    (apply_barrel_distortion img 0).height = img.height ∧
    (apply_barrel_distortion img 0).width = img.width ∧
    (apply_barrel_distortion img 0).pix i j = img.pix i j := by
  refine ⟨?_, rfl, rfl, ?_⟩
  · unfold distortedRadius
    simp only [zero_mul, add_zero, mul_one]
  · show bilinearSample (sampleZero img) (map_x_distorted img.height img.width 0 i j)
      (map_y_distorted img.height img.width 0 i j) = img.pix i j
    rw [map_x_distorted_zero, map_y_distorted_zero, bilinearSample_intCast]
    unfold sampleZero
    rw [if_pos ⟨hj0, hj, hi0, hi⟩]

/-- Witness for C6 at the in-range pixel (1, 2) of the concrete probe
image. -/
theorem claim_C6_identity_witness :
    ((0 : Int) ≤ 1 ∧ (1 : Int) < (probeRImg.height : Int) ∧
      (0 : Int) ≤ 2 ∧ (2 : Int) < (probeRImg.width : Int)) ∧
    (apply_barrel_distortion probeRImg 0).pix 1 2 = probeRImg.pix 1 2 :=
  ⟨⟨by decide, by decide, by decide, by decide⟩,
   (claim_C6_identity_at_zero_strength probeRImg 1 2 (by decide) (by decide) (by decide)
      (by decide)).2.2.2⟩

end StereoScan
